import Mathlib

/-!
Shallow embedding of `src/agent_app.py`: a two-node LangGraph agent loop
(an `agent` node that invokes the model and a `call_tool` node that executes
requested tool calls) driven by a Streamlit session controller that caps the
number of questions per session at `MAX_QUESTIONS = 4`.

External collaborators (the chat model and the search tool) are modelled as
function parameters; fallible calls return `Except`.  The LangGraph execution
engine is modelled as a fuel-indexed recursion over the message list, with
`RunResult.fuelOut` marking a run that has not yet terminated within the given
fuel (the source imposes no iteration cap of its own).
-/

namespace AgentApp

/-- A model-issued request to invoke a named tool with an argument payload,
correlated by an identifier (`tool_calls` entries of a LangChain AIMessage). -/
structure ToolCall where
  name : String
  args : String
  id : String
deriving DecidableEq, Repr

/-- Role of a transcript entry inside the agent loop. -/
inductive Role where
  | user
  | assistant
  | tool
deriving DecidableEq, Repr

/-- A message of the agent-loop transcript (`BaseMessage` in the source):
a role, text content, the ordered list of requested tool calls (empty for a
plain text turn), and, for tool-result messages, the id of the originating
request. -/
structure LoopMsg where
  role : Role
  content : String
  tool_calls : List ToolCall
  tool_call_id : Option String := none
deriving DecidableEq, Repr

/-- The model collaborator (`llm_with_tools.invoke` in the source): receives
the transcript, returns one message or fails. -/
abbrev Llm := List LoopMsg → Except String LoopMsg

/-- The tool collaborator (`TavilySearch` in the source): receives a tool name
and an argument payload, returns a text result or fails. -/
abbrev Tool := String → String → Except String String

/-- Routing outcome of `should_continue`: the LangGraph `END` sentinel or the
name of the tool node. -/
inductive Route where
  | END
  | call_tool
deriving DecidableEq, Repr

/-- `should_continue` (src/agent_app.py lines 69-82): examines
`state['messages'][-1]`; if its `tool_calls` is empty returns `END`, otherwise
returns `"call_tool"`.  Python indexing `[-1]` raises on an empty list, so the
embedding returns `none` there; inside the graph the list is never empty. -/
def should_continue (messages : List LoopMsg) : Option Route :=
  messages.getLast?.map fun last_message =>
    if last_message.tool_calls = [] then Route.END else Route.call_tool

/-- `agent_node` (src/agent_app.py lines 53-59): invokes the model on the
current messages and returns the singleton list of new messages to be appended
by the state reducer (`operator.add`). -/
def agent_node (llm : Llm) (messages : List LoopMsg) : Except String (List LoopMsg) :=
  (llm messages).map fun response => [response]

/-- Modelled from the spec: `ToolNode` is a prebuilt LangGraph node whose code
is not under src/.  Per spec §4.1 `execute_tools`, each requested call invokes
the tool collaborator and wraps its output in a tool-role message correlated to
the request identifier; if the collaborator fails, the wrapped message carries
an error indication as its content instead of raising. -/
def execute_tools (tool : Tool) (calls : List ToolCall) : List LoopMsg :=
  calls.map fun c =>
    match tool c.name c.args with
    | Except.ok out =>
        { role := Role.tool, content := out, tool_calls := [], tool_call_id := some c.id }
    | Except.error e =>
        { role := Role.tool, content := "Error: " ++ e, tool_calls := [],
          tool_call_id := some c.id }

/-- Modelled from the spec: the `tool_node` (src/agent_app.py line 65,
`ToolNode(tools)`) reads the tool calls of the most recent message and executes
them via `execute_tools`. -/
def tool_node (tool : Tool) (messages : List LoopMsg) : List LoopMsg :=
  match messages.getLast? with
  | some m => execute_tools tool m.tool_calls
  | none => []

/-- Outcome of one compiled-graph run. -/
inductive RunResult where
  | ok (messages : List LoopMsg)
  | err (e : String)
  | fuelOut
deriving DecidableEq, Repr

/-- The compiled graph (src/agent_app.py lines 88-115): entry point `agent`;
after `agent`, route by `should_continue` (`call_tool` → tool node, `END` →
finish); after `call_tool`, unconditionally back to `agent`.  The state reducer
appends each node's returned messages.  `fuel` bounds the number of model
invocations for this embedding only — the source has no such cap, and a run
that does not finish within `fuel` yields `RunResult.fuelOut`.  The wildcard
branch covers `END` together with the unreachable empty-transcript case. -/
def runFromAgent (llm : Llm) (tool : Tool) : Nat → List LoopMsg → RunResult
  | 0, _ => RunResult.fuelOut
  | fuel + 1, messages =>
    match llm messages with
    | Except.error e => RunResult.err e
    | Except.ok response =>
      match should_continue (messages ++ [response]) with
      | some Route.call_tool =>
          runFromAgent llm tool fuel
            ((messages ++ [response]) ++ tool_node tool (messages ++ [response]))
      | _ => RunResult.ok (messages ++ [response])

/-- `app.invoke` (src/agent_app.py line 169): run the compiled graph on the
given input messages. -/
def app_invoke (llm : Llm) (tool : Tool) (fuel : Nat) (inputs : List LoopMsg) : RunResult :=
  runFromAgent llm tool fuel inputs

/-- Instrumented variant of `runFromAgent` that additionally counts model
collaborator invocations and individual tool invocations; its first component
agrees with `runFromAgent`. -/
def runCounted (llm : Llm) (tool : Tool) :
    Nat → List LoopMsg → Nat × Nat → RunResult × (Nat × Nat)
  | 0, _, cnt => (RunResult.fuelOut, cnt)
  | fuel + 1, messages, cnt =>
    match llm messages with
    | Except.error e => (RunResult.err e, (cnt.1 + 1, cnt.2))
    | Except.ok response =>
      match should_continue (messages ++ [response]) with
      | some Route.call_tool =>
          runCounted llm tool fuel
            ((messages ++ [response]) ++ tool_node tool (messages ++ [response]))
            (cnt.1 + 1, cnt.2 + response.tool_calls.length)
      | _ => (RunResult.ok (messages ++ [response]), (cnt.1 + 1, cnt.2))

/-- A session-transcript entry as stored in `st.session_state.messages`
(a dict with `role` and `content` strings). -/
structure ChatMsg where
  role : String
  content : String
deriving DecidableEq, Repr

/-- The per-session state owned by the controller: the chat transcript and the
question counter (src/agent_app.py lines 126-129). -/
structure SessionState where
  messages : List ChatMsg
  question_count : Nat
deriving DecidableEq, Repr

/-- `MAX_QUESTIONS` (src/agent_app.py line 122). -/
def MAX_QUESTIONS : Nat := 4

/-- Initial session state: empty transcript, counter 0
(src/agent_app.py lines 126-129). -/
def init_state : SessionState := { messages := [], question_count := 0 }

/-- `questions_left` (src/agent_app.py line 138):
`MAX_QUESTIONS - st.session_state.question_count`, a Python int. -/
def questions_left (s : SessionState) : Int :=
  (MAX_QUESTIONS : Int) - (s.question_count : Int)

/-- `is_disabled` (src/agent_app.py line 139): `questions_left <= 0`. -/
def is_disabled (s : SessionState) : Bool :=
  decide (questions_left s ≤ 0)

/-- The `HumanMessage(content=prompt)` wrapped as the sole input of the graph
run (src/agent_app.py line 165). -/
def userLoopMsg (prompt : String) : LoopMsg :=
  { role := Role.user, content := prompt, tool_calls := [], tool_call_id := none }

/-- `final_state['messages'][-1].content` (src/agent_app.py line 170); the
result list of a finished run is never empty, so the default is unreachable. -/
def lastContent (messages : List LoopMsg) : String :=
  (messages.getLast?.map LoopMsg.content).getD ""

/-- The body of the `if prompt:` block (src/agent_app.py lines 153-175):
increment `question_count`, append the user message, run the compiled graph on
`[HumanMessage(content=prompt)]` only, and on success append the assistant
message holding the final content and return it.  The source wraps the
invocation in no try/except, so a model failure aborts the script run after the
increment and the user-message append: no assistant message is appended and no
answer is produced (second component `none`; likewise for a run that has not
terminated within the fuel, which in the source simply never returns). -/
def submit (llm : Llm) (tool : Tool) (fuel : Nat) (prompt : String) (s : SessionState) :
    SessionState × Option String :=
  let s1 : SessionState :=
    { messages := s.messages ++ [{ role := "user", content := prompt }],
      question_count := s.question_count + 1 }
  match app_invoke llm tool fuel [userLoopMsg prompt] with
  | RunResult.ok final_msgs =>
      ({ s1 with
          messages := s1.messages ++ [{ role := "assistant", content := lastContent final_msgs }] },
       some (lastContent final_msgs))
  | RunResult.err _ => (s1, none)
  | RunResult.fuelOut => (s1, none)

/-- One Streamlit script run (src/agent_app.py lines 137-180): the chat input
is rendered with `disabled=is_disabled`, so when the budget is exhausted it
yields no prompt; `if prompt:` treats `None` and the empty string as falsy;
otherwise the submission is processed by `submit`. -/
def script_run (llm : Llm) (tool : Tool) (fuel : Nat) (userInput : Option String)
    (s : SessionState) : SessionState × Option String :=
  match (if is_disabled s then none else userInput) with
  | none => (s, none)
  | some prompt => if prompt = "" then (s, none) else submit llm tool fuel prompt s

/-- Fold a sequence of script runs (each with its own collaborators, fuel and
user input) over a session state. -/
def script_runs (steps : List (Llm × Tool × Nat × Option String)) (s : SessionState) :
    SessionState :=
  match steps with
  | [] => s
  | p :: rest => script_runs rest (script_run p.1 p.2.1 p.2.2.1 p.2.2.2 s).1

/-- Session states reachable from `init_state` by any sequence of script runs
with arbitrary collaborators, fuel and user inputs. -/
inductive Reachable : SessionState → Prop where
  | init : Reachable init_state
  | step (llm : Llm) (tool : Tool) (fuel : Nat) (input : Option String) (s : SessionState) :
      Reachable s → Reachable (script_run llm tool fuel input s).1

/-- The list of agent-visit states: `visit k` is the transcript on the `k`-th
arrival at the `agent` node, when the first `k` rounds each produced a
tool-requesting model response (`none` once the loop has ended or errored). -/
def stepTool (llm : Llm) (tool : Tool) (messages : List LoopMsg) : Option (List LoopMsg) :=
  match llm messages with
  | Except.error _ => none
  | Except.ok response =>
      if response.tool_calls = [] then none
      else some ((messages ++ [response]) ++ tool_node tool (messages ++ [response]))

/-- See `stepTool`: iterated tool rounds. -/
def visit (llm : Llm) (tool : Tool) : Nat → List LoopMsg → Option (List LoopMsg)
  | 0, messages => some messages
  | k + 1, messages =>
    match stepTool llm tool messages with
    | some next => visit llm tool k next
    | none => none

/-- Stub tool collaborator returning a fixed result for every query. -/
def toolStub : Tool := fun _ _ => Except.ok "stub result"

/-- Stub model collaborator returning the same message on every invocation. -/
def llm_const (ans : LoopMsg) : Llm := fun _ => Except.ok ans

/-- Stub model collaborator that fails on every invocation. -/
def llm_fail (e : String) : Llm := fun _ => Except.error e

/-- A tool-call-free assistant message with the given final content. -/
def assistant_final (c : String) : LoopMsg :=
  { role := Role.assistant, content := c, tool_calls := [], tool_call_id := none }

/-- A search-tool request as the model would issue it. -/
def tool_call_search : ToolCall :=
  { name := "tavily_search", args := "Apple stock price", id := "call_0" }

/-- An assistant message requesting the search tool. -/
def assistant_tool_req : LoopMsg :=
  { role := Role.assistant, content := "", tool_calls := [tool_call_search],
    tool_call_id := none }

/-- A model collaborator that requests a tool on every invocation. -/
def llm_always_tool : Llm := fun _ => Except.ok assistant_tool_req

/-- A model collaborator that requests the search tool on the first round and
answers with final text on every later round. -/
def llm_two_round : Llm := fun messages =>
  if messages.length ≤ 1 then Except.ok assistant_tool_req
  else Except.ok (assistant_final "The price is $150")

/-- A tool collaborator answering every query with a fixed price. -/
def tool_price : Tool := fun _ _ => Except.ok "$150"

/-- A model collaborator whose answer reveals how many messages it was shown. -/
def llm_count_msgs : Llm := fun messages =>
  Except.ok (assistant_final
    (if messages.length = 1 then "saw one message" else "saw several messages"))

/-- The problematic search request of the spec's tool-failure test. -/
def tool_call_qqq : ToolCall :=
  { name := "tavily_search", args := "???", id := "call_1" }

/-- An assistant message requesting the failing query. -/
def assistant_bad_req : LoopMsg :=
  { role := Role.assistant, content := "", tool_calls := [tool_call_qqq],
    tool_call_id := none }

/-- A tool collaborator that fails on the query `???` and succeeds otherwise. -/
def tool_fail_qqq : Tool := fun _ args =>
  if args = "???" then Except.error "search collaborator failed" else Except.ok "ok"

/-- Lift a stored chat message into an agent-loop message (used only to state
the spec's full-transcript reading of `submit`). -/
def chatToLoopMsg (m : ChatMsg) : LoopMsg :=
  { role := if m.role = "user" then Role.user else Role.assistant,
    content := m.content, tool_calls := [], tool_call_id := none }

/-- The `submit` operation as spec §4.2 words it: identical to `submit` except
that the Agent Loop is invoked over the full session transcript (all prior
messages plus the new user message), not over the new user message alone. -/
def submit_spec (llm : Llm) (tool : Tool) (fuel : Nat) (prompt : String)
    (s : SessionState) : SessionState × Option String :=
  let s1 : SessionState :=
    { messages := s.messages ++ [{ role := "user", content := prompt }],
      question_count := s.question_count + 1 }
  match app_invoke llm tool fuel (s.messages.map chatToLoopMsg ++ [userLoopMsg prompt]) with
  | RunResult.ok final_msgs =>
      ({ s1 with
          messages := s1.messages ++ [{ role := "assistant", content := lastContent final_msgs }] },
       some (lastContent final_msgs))
  | RunResult.err _ => (s1, none)
  | RunResult.fuelOut => (s1, none)

/-- A session that already holds one answered question. -/
def session_with_history : SessionState :=
  { messages := [{ role := "user", content := "old question" },
                 { role := "assistant", content := "old answer" }],
    question_count := 1 }

/-- A session whose question budget is exhausted (`remaining() = 0`). -/
def exhausted_state : SessionState := { messages := [], question_count := 4 }

/-- The tool-result message produced by `tool_price` for `tool_call_search`. -/
def price_tool_msg : LoopMsg :=
  { role := Role.tool, content := "$150", tool_calls := [], tool_call_id := some "call_0" }

/-- The transcript on the second agent visit of a `llm_two_round` run. -/
def loop_ms_demo : List LoopMsg :=
  [userLoopMsg "Apple stock price?", assistant_tool_req, price_tool_msg]

/-- The full result transcript of a two-round `llm_two_round` run. -/
def loop_res_demo : List LoopMsg :=
  [userLoopMsg "Apple?", assistant_tool_req, price_tool_msg,
   assistant_final "The price is $150"]

/-- A concrete two-submission interaction sequence. -/
def demo_steps : List (Llm × Tool × Nat × Option String) :=
  [(llm_const (assistant_final "four"), toolStub, 1, some "2+2?"),
   (llm_two_round, tool_price, 2, some "Apple stock price?")]

theorem should_continue_concat (l : List LoopMsg) (m : LoopMsg) :
    should_continue (l ++ [m]) =
      some (if m.tool_calls = [] then Route.END else Route.call_tool) := by
  simp [should_continue, List.getLast?_concat]

theorem runFromAgent_succ_final (llm : Llm) (tool : Tool) (fuel : Nat)
    (messages : List LoopMsg) (response : LoopMsg)
    (h : llm messages = Except.ok response) (h2 : response.tool_calls = []) :
    runFromAgent llm tool (fuel + 1) messages = RunResult.ok (messages ++ [response]) := by
  simp [runFromAgent, h, should_continue_concat, h2]

theorem runFromAgent_succ_tool (llm : Llm) (tool : Tool) (fuel : Nat)
    (messages : List LoopMsg) (response : LoopMsg)
    (h : llm messages = Except.ok response) (h2 : response.tool_calls ≠ []) :
    runFromAgent llm tool (fuel + 1) messages =
      runFromAgent llm tool fuel
        ((messages ++ [response]) ++ tool_node tool (messages ++ [response])) := by
  simp [runFromAgent, h, should_continue_concat, h2]

theorem runFromAgent_succ_err (llm : Llm) (tool : Tool) (fuel : Nat)
    (messages : List LoopMsg) (e : String) (h : llm messages = Except.error e) :
    runFromAgent llm tool (fuel + 1) messages = RunResult.err e := by
  simp [runFromAgent, h]

theorem runFromAgent_extends (llm : Llm) (tool : Tool) :
    ∀ (fuel : Nat) (messages result : List LoopMsg),
      runFromAgent llm tool fuel messages = RunResult.ok result →
      ∃ t, result = messages ++ t := by
  intro fuel
  induction fuel with
  | zero => intro messages result h; simp [runFromAgent] at h
  | succ n ih =>
    intro messages result h
    cases hllm : llm messages with
    | error e => rw [runFromAgent_succ_err llm tool n messages e hllm] at h; exact absurd h (by simp)
    | ok response =>
      by_cases h2 : response.tool_calls = []
      · rw [runFromAgent_succ_final llm tool n messages response hllm h2] at h
        exact ⟨[response], by injection h with h; exact h.symm⟩
      · rw [runFromAgent_succ_tool llm tool n messages response hllm h2] at h
        obtain ⟨t, ht⟩ := ih _ _ h
        exact ⟨[response] ++ tool_node tool (messages ++ [response]) ++ t, by
          rw [ht]; simp⟩

theorem runFromAgent_of_visit (llm : Llm) (tool : Tool) :
    ∀ (k : Nat) (messages ms : List LoopMsg) (response : LoopMsg),
      visit llm tool k messages = some ms →
      llm ms = Except.ok response →
      response.tool_calls = [] →
      ∀ fuel, k < fuel →
        runFromAgent llm tool fuel messages = RunResult.ok (ms ++ [response]) := by
  intro k
  induction k with
  | zero =>
    intro messages ms response hv hllm h2 fuel hf
    obtain rfl : messages = ms := by simpa [visit] using hv
    obtain ⟨f, rfl⟩ : ∃ f, fuel = f + 1 := ⟨fuel - 1, by omega⟩
    exact runFromAgent_succ_final llm tool f messages response hllm h2
  | succ n ih =>
    intro messages ms response hv hllm h2 fuel hf
    rw [visit] at hv
    cases hstep : stepTool llm tool messages with
    | none => rw [hstep] at hv; exact absurd hv (by simp)
    | some next =>
      rw [hstep] at hv
      obtain ⟨f, rfl⟩ : ∃ f, fuel = f + 1 := ⟨fuel - 1, by omega⟩
      cases hllm0 : llm messages with
      | error e => simp [stepTool, hllm0] at hstep
      | ok r0 =>
        simp only [stepTool, hllm0] at hstep
        by_cases hr0 : r0.tool_calls = []
        · rw [if_pos hr0] at hstep; exact absurd hstep (by simp)
        · rw [if_neg hr0] at hstep
          injection hstep with hstep
          rw [runFromAgent_succ_tool llm tool f messages r0 hllm0 hr0, hstep]
          exact ih next ms response hv hllm h2 f (by omega)

theorem submit_question_count (llm : Llm) (tool : Tool) (fuel : Nat) (prompt : String)
    (s : SessionState) :
    (submit llm tool fuel prompt s).1.question_count = s.question_count + 1 := by
  cases h : app_invoke llm tool fuel [userLoopMsg prompt] <;> simp [submit, h]

theorem submit_ok (llm : Llm) (tool : Tool) (fuel : Nat) (prompt : String)
    (s : SessionState) (res : List LoopMsg)
    (h : app_invoke llm tool fuel [userLoopMsg prompt] = RunResult.ok res) :
    submit llm tool fuel prompt s =
      ({ messages := s.messages ++
            [{ role := "user", content := prompt },
             { role := "assistant", content := lastContent res }],
         question_count := s.question_count + 1 },
       some (lastContent res)) := by
  simp [submit, h]

theorem submit_err (llm : Llm) (tool : Tool) (fuel : Nat) (prompt : String)
    (s : SessionState) (e : String)
    (h : app_invoke llm tool fuel [userLoopMsg prompt] = RunResult.err e) :
    submit llm tool fuel prompt s =
      ({ messages := s.messages ++ [{ role := "user", content := prompt }],
         question_count := s.question_count + 1 },
       none) := by
  simp [submit, h]

theorem is_disabled_iff (s : SessionState) :
    is_disabled s = true ↔ MAX_QUESTIONS ≤ s.question_count := by
  simp only [is_disabled, questions_left, MAX_QUESTIONS, decide_eq_true_eq]
  omega

theorem script_run_disabled (llm : Llm) (tool : Tool) (fuel : Nat) (input : Option String)
    (s : SessionState) (h : is_disabled s = true) :
    script_run llm tool fuel input s = (s, none) := by
  simp [script_run, h]

theorem script_run_count_mono (llm : Llm) (tool : Tool) (fuel : Nat) (input : Option String)
    (s : SessionState) :
    s.question_count ≤ (script_run llm tool fuel input s).1.question_count := by
  cases hd : is_disabled s
  · cases input with
    | none => simp [script_run, hd]
    | some p =>
      by_cases hp : p = ""
      · simp [script_run, hd, hp]
      · simp [script_run, hd, hp, submit_question_count]
  · simp [script_run, hd]

theorem script_run_count_le (llm : Llm) (tool : Tool) (fuel : Nat) (input : Option String)
    (s : SessionState) (h : s.question_count ≤ MAX_QUESTIONS) :
    (script_run llm tool fuel input s).1.question_count ≤ MAX_QUESTIONS := by
  cases hd : is_disabled s
  · have hlt : ¬ MAX_QUESTIONS ≤ s.question_count := by
      rw [← is_disabled_iff]; simp [hd]
    cases input with
    | none => simpa [script_run, hd] using h
    | some p =>
      by_cases hp : p = ""
      · simpa [script_run, hd, hp] using h
      · simp [script_run, hd, hp, submit_question_count]
        omega
  · simpa [script_run, hd] using h

theorem script_runs_count_mono (steps : List (Llm × Tool × Nat × Option String)) :
    ∀ s : SessionState, s.question_count ≤ (script_runs steps s).question_count := by
  induction steps with
  | nil => intro s; simp [script_runs]
  | cons p rest ih =>
    intro s
    calc s.question_count ≤ (script_run p.1 p.2.1 p.2.2.1 p.2.2.2 s).1.question_count :=
          script_run_count_mono p.1 p.2.1 p.2.2.1 p.2.2.2 s
      _ ≤ (script_runs (p :: rest) s).question_count := ih _

theorem script_runs_count_le (steps : List (Llm × Tool × Nat × Option String)) :
    ∀ s : SessionState, s.question_count ≤ MAX_QUESTIONS →
      (script_runs steps s).question_count ≤ MAX_QUESTIONS := by
  induction steps with
  | nil => intro s h; simpa [script_runs] using h
  | cons p rest ih =>
    intro s h
    exact ih _ (script_run_count_le p.1 p.2.1 p.2.2.1 p.2.2.2 s h)

theorem reachable_count_le (s : SessionState) (h : Reachable s) :
    s.question_count ≤ MAX_QUESTIONS := by
  induction h with
  | init => exact Nat.zero_le _
  | step llm tool fuel input t _ ih => exact script_run_count_le llm tool fuel input t ih

theorem runFromAgent_always_tool (tool : Tool) :
    ∀ (n : Nat) (messages : List LoopMsg),
      runFromAgent llm_always_tool tool n messages = RunResult.fuelOut := by
  intro n
  induction n with
  | zero => intro messages; rfl
  | succ k ih =>
    intro messages
    rw [runFromAgent_succ_tool llm_always_tool tool k messages assistant_tool_req rfl
      (by simp [assistant_tool_req])]
    exact ih _

theorem submit_llm_fail (tool : Tool) (fuel : Nat) (prompt : String) (s : SessionState)
    (e : String) :
    submit (llm_fail e) tool fuel prompt s =
      ({ messages := s.messages ++ [{ role := "user", content := prompt }],
         question_count := s.question_count + 1 },
       none) := by
  cases fuel with
  | zero => simp [submit, app_invoke, runFromAgent]
  | succ n =>
    have h := runFromAgent_succ_err (llm_fail e) tool n [userLoopMsg prompt] e rfl
    simp [submit, app_invoke, h]

theorem submit_extends (llm : Llm) (tool : Tool) (fuel : Nat) (prompt : String)
    (s : SessionState) :
    ∃ t, (submit llm tool fuel prompt s).1.messages = s.messages ++ t := by
  cases h : app_invoke llm tool fuel [userLoopMsg prompt] with
  | ok res =>
    exact ⟨[{ role := "user", content := prompt },
            { role := "assistant", content := lastContent res }],
      by rw [submit_ok llm tool fuel prompt s res h]⟩
  | err e => exact ⟨[{ role := "user", content := prompt }], by simp [submit, h]⟩
  | fuelOut => exact ⟨[{ role := "user", content := prompt }], by simp [submit, h]⟩

theorem script_run_extends (llm : Llm) (tool : Tool) (fuel : Nat) (input : Option String)
    (s : SessionState) :
    ∃ t, (script_run llm tool fuel input s).1.messages = s.messages ++ t := by
  cases hd : is_disabled s
  · cases input with
    | none => exact ⟨[], by simp [script_run, hd]⟩
    | some p =>
      by_cases hp : p = ""
      · exact ⟨[], by simp [script_run, hd, hp]⟩
      · obtain ⟨t, ht⟩ := submit_extends llm tool fuel p s
        exact ⟨t, by simpa [script_run, hd, hp] using ht⟩
  · exact ⟨[], by simp [script_run, hd]⟩

/-- Claim C1, counterexample: the claim says the Agent Loop is invoked over the
full session transcript.  With a model whose answer reveals how many messages
it received, `submit` at a session holding two prior messages answers
"saw one message" — the loop received only the new user message — while the
spec-worded `submit_spec` (full transcript) answers "saw several messages";
the two operations disagree at this concrete input. -/
theorem submit_drops_history_counterexample :
    (submit llm_count_msgs toolStub 1 "new question" session_with_history).2
        = some "saw one message" ∧
    (submit_spec llm_count_msgs toolStub 1 "new question" session_with_history).2
        = some "saw several messages" ∧
    submit llm_count_msgs toolStub 1 "new question" session_with_history
        ≠ submit_spec llm_count_msgs toolStub 1 "new question" session_with_history := by
  refine ⟨by decide, by decide, by decide⟩

/-- Claim C1, amended: an accepted submission invokes the Agent Loop over only
the newly submitted user message (`inputs = [HumanMessage(content=prompt)]`,
src/agent_app.py line 165), not over the accumulated transcript — the returned
answer is independent of the prior session transcript — and on success the
returned answer is the content of the final message of the loop's result. -/
theorem submit_invokes_loop_on_new_message_only (llm : Llm) (tool : Tool) (fuel : Nat)
    (prompt : String) (s1 s2 : SessionState) (res : List LoopMsg)
    (h : app_invoke llm tool fuel [userLoopMsg prompt] = RunResult.ok res) :
    (submit llm tool fuel prompt s1).2 = (submit llm tool fuel prompt s2).2 ∧
    (submit llm tool fuel prompt s1).2 = some (lastContent res) := by
  constructor
  · cases happ : app_invoke llm tool fuel [userLoopMsg prompt] <;> simp [submit, happ]
  · rw [submit_ok llm tool fuel prompt s1 res h]

/-- Claim C1, witness for the amended theorem at a concrete input. -/
theorem submit_invokes_loop_on_new_message_only_witness :
    (submit (llm_const (assistant_final "four")) toolStub 1 "2+2?" session_with_history).2
        = (submit (llm_const (assistant_final "four")) toolStub 1 "2+2?" init_state).2 ∧
    (submit (llm_const (assistant_final "four")) toolStub 1 "2+2?" session_with_history).2
        = some (lastContent [userLoopMsg "2+2?", assistant_final "four"]) :=
  submit_invokes_loop_on_new_message_only (llm_const (assistant_final "four")) toolStub 1
    "2+2?" session_with_history init_state [userLoopMsg "2+2?", assistant_final "four"]
    (by decide)

/-- Claim C2, counterexample: the claim says the refusal at `remaining() ≤ 0`
is enforced at the controller rather than only by the UI disabling input.  The
processing block (`if prompt:`) has no budget check: at the exhausted state it
still consults the model collaborator (two different stub models yield two
different outcomes), returns the model's answer, and pushes the counter to 5,
past `MAX_QUESTIONS`. -/
theorem submit_block_lacks_budget_check :
    is_disabled exhausted_state = true ∧
    (submit (llm_const (assistant_final "answer A")) toolStub 1 "q" exhausted_state).2
        = some "answer A" ∧
    (submit (llm_const (assistant_final "answer A")) toolStub 1 "q"
        exhausted_state).1.question_count = 5 ∧
    submit (llm_const (assistant_final "answer A")) toolStub 1 "q" exhausted_state
        ≠ submit (llm_const (assistant_final "answer B")) toolStub 1 "q" exhausted_state := by
  refine ⟨by decide, by decide, by decide, by decide⟩

/-- Claim C2, amended: when `remaining() ≤ 0` a script run is refused without
contacting the model or tool collaborator — the outcome is `(s, none)` and is
identical for arbitrary collaborators and fuel — but the refusal is enforced
solely by the UI input being disabled (`chat_input(disabled=is_disabled)`
yields no prompt), not by a budget check in the controller's processing
block. -/
theorem budget_refusal_via_disabled_input (llm llm2 : Llm) (tool tool2 : Tool)
    (fuel fuel2 : Nat) (input : Option String) (s : SessionState)
    (h : is_disabled s = true) :
    script_run llm tool fuel input s = (s, none) ∧
    script_run llm tool fuel input s = script_run llm2 tool2 fuel2 input s := by
  rw [script_run_disabled llm tool fuel input s h,
    script_run_disabled llm2 tool2 fuel2 input s h]
  exact ⟨rfl, rfl⟩

/-- Claim C2, witness for the amended theorem at the exhausted state. -/
theorem budget_refusal_via_disabled_input_witness :
    script_run (llm_const (assistant_final "answer A")) toolStub 1 (some "q") exhausted_state
        = (exhausted_state, none) ∧
    script_run (llm_const (assistant_final "answer A")) toolStub 1 (some "q") exhausted_state
        = script_run (llm_const (assistant_final "answer B")) tool_price 7 (some "q")
            exhausted_state :=
  budget_refusal_via_disabled_input (llm_const (assistant_final "answer A"))
    (llm_const (assistant_final "answer B")) toolStub tool_price 1 7 (some "q")
    exhausted_state (by decide)

/-- Claim C3: on every reachable session state the counter never exceeds
`MAX_QUESTIONS = 4`, `questions_left` equals `MAX_QUESTIONS - question_count`
and is never negative, and over any further sequence of script runs the
counter is monotonically non-decreasing and stays within the budget. -/
theorem question_budget_invariant (s : SessionState)
    (steps : List (Llm × Tool × Nat × Option String)) (h : Reachable s) :
    s.question_count ≤ MAX_QUESTIONS ∧
    questions_left s = (MAX_QUESTIONS : Int) - (s.question_count : Int) ∧
    0 ≤ questions_left s ∧
    s.question_count ≤ (script_runs steps s).question_count ∧
    (script_runs steps s).question_count ≤ MAX_QUESTIONS := by
  have hle := reachable_count_le s h
  have h4 : s.question_count ≤ 4 := hle
  refine ⟨hle, rfl, ?_, script_runs_count_mono steps s, script_runs_count_le steps s hle⟩
  unfold questions_left MAX_QUESTIONS
  omega

/-- Claim C3, witness: the invariant at the initial state over a concrete
two-submission sequence. -/
theorem question_budget_invariant_witness :
    init_state.question_count ≤ MAX_QUESTIONS ∧
    questions_left init_state = (MAX_QUESTIONS : Int) - (init_state.question_count : Int) ∧
    0 ≤ questions_left init_state ∧
    init_state.question_count ≤ (script_runs demo_steps init_state).question_count ∧
    (script_runs demo_steps init_state).question_count ≤ MAX_QUESTIONS :=
  question_budget_invariant init_state demo_steps Reachable.init

/-- Claim C4, counterexample: the claim says the controller surfaces an error
string as the answer when the model fails.  With a failing model, `submit`
consumes the budget increment and appends the user message, but produces no
answer at all (`none`, not an error string) and appends no assistant message:
the failure propagates out of the controller uncaught. -/
theorem model_failure_yields_no_error_answer :
    submit (llm_fail "model unavailable") toolStub 1 "What is 2+2?" init_state
      = ({ messages := [{ role := "user", content := "What is 2+2?" }],
           question_count := 1 },
         none) := by
  decide

/-- Claim C4, amended: the question-budget increment is consumed before the
failure (the counter is incremented and the user message appended eagerly,
before the Agent Loop is invoked), but the controller has no error handling:
on an unrecoverable model failure the exception propagates, no error-string
answer is produced and no assistant message is appended. -/
theorem model_failure_after_eager_increment (tool : Tool) (fuel : Nat) (prompt : String)
    (s : SessionState) (e : String) :
    (submit (llm_fail e) tool fuel prompt s).1.question_count = s.question_count + 1 ∧
    (submit (llm_fail e) tool fuel prompt s).1.messages
        = s.messages ++ [{ role := "user", content := prompt }] ∧
    (submit (llm_fail e) tool fuel prompt s).2 = none := by
  rw [submit_llm_fail tool fuel prompt s e]
  exact ⟨rfl, rfl, rfl⟩

/-- Claim C5: the routing decision examines only the most recently appended
message — it is unchanged under replacing the whole prefix — and it yields
`END` exactly when that message's `tool_calls` is empty, `call_tool` exactly
when it is non-empty. -/
theorem should_continue_examines_last_message_only (pre1 pre2 : List LoopMsg) (m : LoopMsg) :
    should_continue (pre1 ++ [m]) = should_continue (pre2 ++ [m]) ∧
    (should_continue (pre1 ++ [m]) = some Route.END ↔ m.tool_calls = []) ∧
    (should_continue (pre1 ++ [m]) = some Route.call_tool ↔ m.tool_calls ≠ []) := by
  rw [should_continue_concat, should_continue_concat]
  by_cases h : m.tool_calls = [] <;> simp [h]

/-- Claim C6: (a) if after `k` tool rounds the model returns a message with
empty `tool_calls`, the loop terminates with that message as final answer, for
any fuel above `k`; (b) after each tool-execution step the loop unconditionally
returns to the model node; (c) the design itself imposes no iteration cap: a
model that always requests tools exhausts any fuel allotment without the loop
ever terminating. -/
theorem agent_loop_terminates_and_uncapped (llm : Llm) (tool : Tool)
    (inputs ms ms2 : List LoopMsg) (response r2 : LoopMsg) (k fuel n : Nat)
    (h1 : visit llm tool k inputs = some ms)
    (h2 : llm ms = Except.ok response)
    (h3 : response.tool_calls = [])
    (hf : k < fuel)
    (h4 : llm ms2 = Except.ok r2)
    (h5 : r2.tool_calls ≠ []) :
    runFromAgent llm tool fuel inputs = RunResult.ok (ms ++ [response]) ∧
    runFromAgent llm tool (fuel + 1) ms2 =
      runFromAgent llm tool fuel ((ms2 ++ [r2]) ++ tool_node tool (ms2 ++ [r2])) ∧
    runFromAgent llm_always_tool tool n inputs = RunResult.fuelOut :=
  ⟨runFromAgent_of_visit llm tool k inputs ms response h1 h2 h3 fuel hf,
   runFromAgent_succ_tool llm tool fuel ms2 r2 h4 h5,
   runFromAgent_always_tool tool n inputs⟩

/-- Claim C6, witness: a two-round model terminates the loop; the tool round
returns to the model; the always-requesting model never terminates in 5
rounds. -/
theorem agent_loop_terminates_and_uncapped_witness :
    runFromAgent llm_two_round tool_price 2 [userLoopMsg "Apple stock price?"]
        = RunResult.ok (loop_ms_demo ++ [assistant_final "The price is $150"]) ∧
    runFromAgent llm_two_round tool_price (2 + 1) [userLoopMsg "Apple stock price?"] =
      runFromAgent llm_two_round tool_price 2
        (([userLoopMsg "Apple stock price?"] ++ [assistant_tool_req]) ++
          tool_node tool_price ([userLoopMsg "Apple stock price?"] ++ [assistant_tool_req])) ∧
    runFromAgent llm_always_tool tool_price 5 [userLoopMsg "Apple stock price?"]
        = RunResult.fuelOut :=
  agent_loop_terminates_and_uncapped llm_two_round tool_price
    [userLoopMsg "Apple stock price?"] loop_ms_demo [userLoopMsg "Apple stock price?"]
    (assistant_final "The price is $150") assistant_tool_req 1 2 5
    (by decide) rfl (by decide) (by decide) rfl (by decide)

/-- Claim C7: a tool call whose collaborator fails is wrapped as a tool-role
message whose content carries an error indication, correlated to the request
identifier; the message is appended and the loop proceeds to a subsequent
model invocation instead of terminating abnormally. -/
theorem tool_failure_wrapped_and_loop_continues (llm : Llm) (tool : Tool)
    (messages : List LoopMsg) (m : LoopMsg) (c : ToolCall) (e : String) (fuel : Nat)
    (hllm : llm messages = Except.ok m) (hm : m.tool_calls = [c])
    (htool : tool c.name c.args = Except.error e) :
    tool_node tool (messages ++ [m]) =
      [{ role := Role.tool, content := "Error: " ++ e, tool_calls := [],
         tool_call_id := some c.id }] ∧
    runFromAgent llm tool (fuel + 1) messages =
      runFromAgent llm tool fuel
        ((messages ++ [m]) ++
          [{ role := Role.tool, content := "Error: " ++ e, tool_calls := [],
             tool_call_id := some c.id }]) := by
  have ht : tool_node tool (messages ++ [m]) =
      [{ role := Role.tool, content := "Error: " ++ e, tool_calls := [],
         tool_call_id := some c.id }] := by
    simp [tool_node, List.getLast?_concat, execute_tools, hm, htool]
  refine ⟨ht, ?_⟩
  rw [runFromAgent_succ_tool llm tool fuel messages m hllm (by rw [hm]; simp), ht]

/-- Claim C7, witness: the stubbed tool fails on query `???`; the loop wraps
the failure and continues. -/
theorem tool_failure_wrapped_and_loop_continues_witness :
    tool_node tool_fail_qqq ([userLoopMsg "???"] ++ [assistant_bad_req]) =
      [{ role := Role.tool, content := "Error: " ++ "search collaborator failed",
         tool_calls := [], tool_call_id := some tool_call_qqq.id }] ∧
    runFromAgent (llm_const assistant_bad_req) tool_fail_qqq (1 + 1) [userLoopMsg "???"] =
      runFromAgent (llm_const assistant_bad_req) tool_fail_qqq 1
        (([userLoopMsg "???"] ++ [assistant_bad_req]) ++
          [{ role := Role.tool, content := "Error: " ++ "search collaborator failed",
             tool_calls := [], tool_call_id := some tool_call_qqq.id }]) :=
  tool_failure_wrapped_and_loop_continues (llm_const assistant_bad_req) tool_fail_qqq
    [userLoopMsg "???"] assistant_bad_req tool_call_qqq "search collaborator failed" 1
    rfl (by decide) rfl

/-- Claim C8: with a stubbed model that immediately returns a tool-call-free
answer, a run makes exactly one model invocation and zero tool invocations,
and a `submit` call returns exactly that answer. -/
theorem immediate_answer_single_model_call (ans : LoopMsg) (tool : Tool) (fuel : Nat)
    (q : String) (s : SessionState)
    (h : ans.tool_calls = []) (hf : 0 < fuel) :
    runCounted (llm_const ans) tool fuel [userLoopMsg q] (0, 0)
        = (RunResult.ok [userLoopMsg q, ans], (1, 0)) ∧
    (submit (llm_const ans) tool fuel q s).2 = some ans.content := by
  obtain ⟨f, rfl⟩ : ∃ f, fuel = f + 1 := ⟨fuel - 1, by omega⟩
  constructor
  · have e1 : should_continue [userLoopMsg q, ans]
        = some (if ans.tool_calls = [] then Route.END else Route.call_tool) := rfl
    simp [runCounted, llm_const, e1, h]
  · have hrun := runFromAgent_succ_final (llm_const ans) tool f [userLoopMsg q] ans rfl h
    rw [submit_ok (llm_const ans) tool (f + 1) q s ([userLoopMsg q] ++ [ans]) hrun]
    simp [lastContent, List.getLast?_concat]

/-- Claim C8, witness: `submit("2+2?")` against the immediate-answer stub. -/
theorem immediate_answer_single_model_call_witness :
    runCounted (llm_const (assistant_final "4")) toolStub 1 [userLoopMsg "2+2?"] (0, 0)
        = (RunResult.ok [userLoopMsg "2+2?", assistant_final "4"], (1, 0)) ∧
    (submit (llm_const (assistant_final "4")) toolStub 1 "2+2?" init_state).2
        = some (assistant_final "4").content :=
  immediate_answer_single_model_call (assistant_final "4") toolStub 1 "2+2?" init_state
    (by decide) (by decide)

/-- Claim C9: transcripts are append-only.  Every script run leaves the prior
session transcript as an unchanged prefix; a successful submission appends the
user message then the final assistant message, in chronological order; and a
finished loop run extends its input transcript by appending only. -/
theorem transcript_append_only (llm : Llm) (tool : Tool) (fuel : Nat) (input : Option String)
    (prompt : String) (s : SessionState) (res msgs0 res0 : List LoopMsg)
    (h : app_invoke llm tool fuel [userLoopMsg prompt] = RunResult.ok res)
    (h0 : runFromAgent llm tool fuel msgs0 = RunResult.ok res0) :
    (∃ t, (script_run llm tool fuel input s).1.messages = s.messages ++ t) ∧
    (submit llm tool fuel prompt s).1.messages =
      s.messages ++ [{ role := "user", content := prompt },
                     { role := "assistant", content := lastContent res }] ∧
    ∃ t, res0 = msgs0 ++ t := by
  refine ⟨script_run_extends llm tool fuel input s, ?_,
    runFromAgent_extends llm tool fuel msgs0 res0 h0⟩
  rw [submit_ok llm tool fuel prompt s res h]

/-- Claim C9, witness: append-only behaviour over a concrete two-round run. -/
theorem transcript_append_only_witness :
    (∃ t, (script_run llm_two_round tool_price 2 (some "Apple?")
        session_with_history).1.messages = session_with_history.messages ++ t) ∧
    (submit llm_two_round tool_price 2 "Apple?" session_with_history).1.messages =
      session_with_history.messages ++
        [{ role := "user", content := "Apple?" },
         { role := "assistant", content := lastContent loop_res_demo }] ∧
    ∃ t, loop_res_demo = [userLoopMsg "Apple?"] ++ t :=
  transcript_append_only llm_two_round tool_price 2 (some "Apple?") "Apple?"
    session_with_history loop_res_demo [userLoopMsg "Apple?"] loop_res_demo
    (by decide) (by decide)

/-- Claim C10, counterexample: the claim says every accepted submission appends
exactly two entries.  An accepted submission whose model call fails appends
only one entry (the user message), though it still increments the counter by
one. -/
theorem failed_submission_appends_single_entry :
    ((submit (llm_fail "rate limited") toolStub 1 "second question"
        session_with_history).1.messages).length
      = session_with_history.messages.length + 1 ∧
    (submit (llm_fail "rate limited") toolStub 1 "second question"
        session_with_history).1.question_count
      = session_with_history.question_count + 1 := by
  refine ⟨by decide, by decide⟩

/-- Claim C10, amended: every accepted submission increments the counter by
exactly one; when the Agent Loop completes successfully, exactly two entries
are appended to the session transcript — the user question followed by the
assistant answer — regardless of how many intermediate messages the loop
produced internally (they are never stored at session level); when the model
fails, only the user entry is appended. -/
theorem successful_submission_appends_two_entries (llm : Llm) (tool tool2 : Tool)
    (fuel fuel2 : Nat) (prompt prompt2 : String) (s s2 : SessionState)
    (res : List LoopMsg) (e : String)
    (h : app_invoke llm tool fuel [userLoopMsg prompt] = RunResult.ok res) :
    (submit llm tool fuel prompt s).1.question_count = s.question_count + 1 ∧
    (submit llm tool fuel prompt s).1.messages =
      s.messages ++ [{ role := "user", content := prompt },
                     { role := "assistant", content := lastContent res }] ∧
    ((submit llm tool fuel prompt s).1.messages).length = s.messages.length + 2 ∧
    (submit (llm_fail e) tool2 fuel2 prompt2 s2).1.messages =
      s2.messages ++ [{ role := "user", content := prompt2 }] := by
  rw [submit_ok llm tool fuel prompt s res h, submit_llm_fail tool2 fuel2 prompt2 s2 e]
  refine ⟨rfl, rfl, by simp, rfl⟩

/-- Claim C10, witness: a two-round loop run creates four loop messages, yet
the session transcript gains exactly the user entry and the assistant entry. -/
theorem successful_submission_appends_two_entries_witness :
    (submit llm_two_round tool_price 2 "Apple?" init_state).1.question_count
        = init_state.question_count + 1 ∧
    (submit llm_two_round tool_price 2 "Apple?" init_state).1.messages =
      init_state.messages ++
        [{ role := "user", content := "Apple?" },
         { role := "assistant", content := lastContent loop_res_demo }] ∧
    ((submit llm_two_round tool_price 2 "Apple?" init_state).1.messages).length
        = init_state.messages.length + 2 ∧
    (submit (llm_fail "boom") toolStub 3 "q2" exhausted_state).1.messages =
      exhausted_state.messages ++ [{ role := "user", content := "q2" }] :=
  successful_submission_appends_two_entries llm_two_round tool_price toolStub 2 3
    "Apple?" "q2" init_state exhausted_state loop_res_demo "boom" (by decide)

end AgentApp
